import Mathlib

/-!
The Scaleway invoice table.

A shallow embedding of `scaleway/table_scaleway_invoices.go`: the table
declaration `tableScalewayInvoice`, the row type `InvoiceItem` and the list
hydrate function `listScalewayInvoices`.

The hydrate function talks to three collaborators: the session provider
`getSessionConfig`, the billing operation `ListInvoices` and the host's row
sink `StreamListItem`.  The two providers are parameters of the embedding and
every effect (log line, billing call, streamed row) is appended, in program
order, to a trace of `Event`s.
-/

namespace Scaleway

/-! ## Data model -/

/-- A Go `error` value, identified by the message it carries. -/
structure GoError where
  msg : String
deriving DecidableEq, Repr

/-- The SDK's `time.Time`, an instant counted in nanoseconds. -/
structure Time where
  unixNano : Int
deriving DecidableEq, Repr

/-- The SDK's `scw.Money`: a currency code with units and nanos. -/
structure Money where
  CurrencyCode : String
  Units : Int
  Nanos : Int
deriving DecidableEq, Repr

/-- The SDK's `billing.Invoice`, with the fields the hydrate function reads.
`Type_` is the Go field `Type` (a string-based `billing.InvoiceType`);
pointer fields are `Option`s, `none` being `nil`. -/
structure Invoice where
  ID : String
  OrganizationID : String
  OrganizationName : String
  StartDate : Option Time
  StopDate : Option Time
  BillingPeriod : Option Time
  IssuedDate : Option Time
  DueDate : Option Time
  TotalUntaxed : Option Money
  TotalTaxed : Option Money
  TotalTax : Option Money
  TotalDiscount : Option Money
  TotalUndiscount : Option Money
  Type_ : String
  State : String
  Number : Int
  SellerName : String
deriving DecidableEq, Repr

/-- The row type `InvoiceItem` (source lines 48-66), fields in source order. -/
structure InvoiceItem where
  ID : String
  OrganizationID : String
  OrganizationName : String
  StartDate : Option Time
  StopDate : Option Time
  IssuedDate : Option Time
  DueDate : Option Time
  TotalUntaxed : Option Money
  TotalTaxed : Option Money
  TotalDiscount : Option Money
  TotalUndiscount : Option Money
  TotalTax : Option Money
  Type_ : String
  Number : Int
  State : String
  BillingPeriod : Option Time
  SellerName : String
deriving DecidableEq, Repr

/-- The json struct tags of `InvoiceItem` (source lines 49-65), as pairs of
Go field name and tag, in source order. -/
def InvoiceItem.jsonTags : List (String × String) :=
  [ ("ID", "id"),
    ("OrganizationID", "organization_id"),
    ("OrganizationName", "organization_name"),
    ("StartDate", "start_date"),
    ("StopDate", "stop_date"),
    ("IssuedDate", "issued_date"),
    ("DueDate", "due_date"),
    ("TotalUntaxed", "total_untaxed"),
    ("TotalTaxed", "total_taxed"),
    ("TotalDiscount", "total_discount"),
    ("TotalUndiscount", "total_undiscount"),
    ("TotalTax", "total_tax"),
    ("Type", "type"),
    ("Number", "number"),
    ("State", "state"),
    ("BillingPeriod", "billing_period"),
    ("SellerName", "seller_name") ]

/-! ## Table declaration -/

/-- The host's `proto.ColumnType` enumeration. -/
inductive ColumnType where
  | BOOL | INT | DOUBLE | STRING | JSON | DATETIME | IPADDR | CIDR
  | TIMESTAMP | INET | LTREE
deriving DecidableEq, Repr

/-- The host's key column requirement (`plugin.Required`, `plugin.Optional`,
`plugin.AnyOf`). -/
inductive Require where
  | Required | Optional | AnyOf
deriving DecidableEq, Repr

/-- The host's `plugin.KeyColumn`. -/
structure KeyColumn where
  Name : String
  Require : Require
deriving DecidableEq, Repr

/-- The host's `plugin.Column`; `Transform` holds the field name given to
`transform.FromField`, `none` when the column declares no transform. -/
structure Column where
  Name : String
  Type_ : ColumnType
  Description : String
  Transform : Option String
deriving DecidableEq, Repr

/-- The hydrate functions a table of this file can name. -/
inductive HydrateFunc where
  | listScalewayInvoices
deriving DecidableEq, Repr

/-- The host's `plugin.ListConfig`. -/
structure ListConfig where
  Hydrate : HydrateFunc
  KeyColumns : List KeyColumn
deriving DecidableEq, Repr

/-- The host's `plugin.Table`; `Columns` is declared before `List` so that
the field name does not hide the list type. -/
structure Table where
  Name : String
  Description : String
  Columns : List Column
  List : ListConfig
deriving DecidableEq, Repr

/-! ## Effects -/

/-- Log levels of the host logger used by this file. -/
inductive LogLevel where
  | Debug | Error
deriving DecidableEq, Repr

/-- An argument following the message of a log call. -/
inductive LogArg where
  | str (s : String)
  | err (e : GoError)
  | item (i : InvoiceItem)
deriving DecidableEq, Repr

/-- The SDK's client handle (`*scw.Client`), an opaque identity. -/
structure Client where
  handle : Nat
deriving DecidableEq, Repr

/-- The SDK's `billing.ListInvoicesRequest`, restricted to the one field the
hydrate function assigns; all others keep their zero value. -/
structure ListInvoicesRequest where
  OrganizationID : Option String := none
deriving DecidableEq, Repr

/-- One observable effect of running code of this file. -/
inductive Event where
  | log (level : LogLevel) (msg : String) (args : List LogArg)
  | ListInvoices (client : Client) (req : ListInvoicesRequest)
  | StreamListItem (item : InvoiceItem)
deriving DecidableEq, Repr

/-- How a call ends: it returns `(nil, err)`, or it dereferences a nil
pointer and the Go runtime aborts it. -/
inductive Outcome where
  | returned (err : Option GoError)
  | nilDereference
deriving DecidableEq, Repr

/-- The result of running a call: its effects in program order and how it
ended. -/
structure Run where
  trace : List Event
  outcome : Outcome
deriving DecidableEq, Repr

/-- The rows handed to the row sink, in order. -/
def Run.emitted (r : Run) : List InvoiceItem :=
  r.trace.filterMap fun
    | Event.StreamListItem item => some item
    | _ => none

/-- The billing calls made, in order. -/
def Run.apiCalls (r : Run) : List (Client × ListInvoicesRequest) :=
  r.trace.filterMap fun
    | Event.ListInvoices client req => some (client, req)
    | _ => none

/-- The error-level log entries written, in order. -/
def Run.errorLogs (r : Run) : List Event :=
  r.trace.filter fun
    | Event.log LogLevel.Error _ _ => true
    | _ => false

/-! ## Collaborators -/

/-- The connection configuration `scalewayConfig` of this package, restricted
to the field the hydrate function reads: a string pointer that the source
tests against nil before dereferencing it. -/
structure scalewayConfig where
  OrganizationID : Option String := none
deriving DecidableEq, Repr

/-- The host's `plugin.Connection`; `Config` is `none` when no configuration
is attached. -/
structure Connection where
  Config : Option scalewayConfig
deriving DecidableEq, Repr

/-- The host's `plugin.QueryData`: the connection (`none` is a nil pointer)
and the equality quals of the query, keyed by column name, with their string
values. -/
structure QueryData where
  Connection : Option Connection
  EqualsQuals : List (String × String)
deriving DecidableEq, Repr

/-- The host's `QueryData.EqualsQualString`: the string value of the equality
qual on `key`, the empty string when the query has none. -/
def QueryData.EqualsQualString (d : QueryData) (key : String) : String :=
  match d.EqualsQuals.lookup key with
  | some v => v
  | none => ""

/-- Modelled from the spec: `GetConfig`, the accessor of this package that
"retrieves a statically configured default organization identifier" from the
connection; a connection without configuration yields the zero config. -/
def GetConfig (connection : Option Connection) : scalewayConfig :=
  match connection with
  | some conn =>
    match conn.Config with
    | some config => config
    | none => {}
  | none => {}

/-- What `getSessionConfig` returns: a client pointer and an error. -/
structure SessionResult where
  client : Option Client
  err : Option GoError
deriving DecidableEq, Repr

/-- The SDK's `billing.ListInvoicesResponse`: a slice of invoice pointers
(`none` is a nil element). -/
structure ListInvoicesResponse where
  Invoices : List (Option Invoice)
deriving DecidableEq, Repr

/-- What `ListInvoices` returns: a response pointer and an error. -/
structure ListInvoicesResult where
  resp : Option ListInvoicesResponse
  err : Option GoError
deriving DecidableEq, Repr

/-! ## The code -/

/-- `tableScalewayInvoice` (source lines 15-46): the debug line it logs and
the table it returns. -/
def tableScalewayInvoice : Run × Table :=
  (⟨[Event.log LogLevel.Debug "Initializing Scaleway Invoice table" []], Outcome.returned none⟩,
   { Name := "scaleway_invoice"
     Description := "Invoices in your Scaleway account."
     List :=
       { Hydrate := HydrateFunc.listScalewayInvoices
         KeyColumns := [{ Name := "organization_id", Require := Require.Optional }] }
     Columns :=
       [ { Name := "id", Type_ := ColumnType.STRING, Description := "The unique identifier of the invoice.", Transform := some "ID" },
         { Name := "organization_id", Type_ := ColumnType.STRING, Description := "The organization ID associated with the invoice.", Transform := some "OrganizationID" },
         { Name := "organization_name", Type_ := ColumnType.STRING, Description := "The organization name associated with the invoice.", Transform := none },
         { Name := "start_date", Type_ := ColumnType.TIMESTAMP, Description := "The start date of the billing period.", Transform := none },
         { Name := "stop_date", Type_ := ColumnType.TIMESTAMP, Description := "The end date of the billing period.", Transform := none },
         { Name := "billing_period", Type_ := ColumnType.TIMESTAMP, Description := "The billing period for the invoice.", Transform := none },
         { Name := "issued_date", Type_ := ColumnType.TIMESTAMP, Description := "The date when the invoice was issued.", Transform := none },
         { Name := "due_date", Type_ := ColumnType.TIMESTAMP, Description := "The due date for the invoice payment.", Transform := none },
         { Name := "total_untaxed", Type_ := ColumnType.JSON, Description := "The total amount before tax.", Transform := none },
         { Name := "total_taxed", Type_ := ColumnType.JSON, Description := "The total amount including tax.", Transform := none },
         { Name := "total_tax", Type_ := ColumnType.JSON, Description := "The total tax amount.", Transform := none },
         { Name := "total_discount", Type_ := ColumnType.JSON, Description := "The total discount amount.", Transform := none },
         { Name := "total_undiscount", Type_ := ColumnType.JSON, Description := "The total amount before discount.", Transform := none },
         { Name := "type", Type_ := ColumnType.STRING, Description := "The type of the invoice.", Transform := none },
         { Name := "state", Type_ := ColumnType.STRING, Description := "The current state of the invoice.", Transform := none },
         { Name := "number", Type_ := ColumnType.INT, Description := "The invoice number.", Transform := none },
         { Name := "seller_name", Type_ := ColumnType.STRING, Description := "The name of the seller.", Transform := none } ] })

/-- The struct literal of source lines 111-129: the row built from one
invoice. -/
def InvoiceItem.ofInvoice (invoice : Invoice) : InvoiceItem :=
  { ID := invoice.ID
    OrganizationID := invoice.OrganizationID
    OrganizationName := invoice.OrganizationName
    StartDate := invoice.StartDate
    StopDate := invoice.StopDate
    IssuedDate := invoice.IssuedDate
    DueDate := invoice.DueDate
    TotalUntaxed := invoice.TotalUntaxed
    TotalTaxed := invoice.TotalTaxed
    TotalDiscount := invoice.TotalDiscount
    TotalUndiscount := invoice.TotalUndiscount
    TotalTax := invoice.TotalTax
    Type_ := invoice.Type_
    Number := invoice.Number
    State := invoice.State
    BillingPeriod := invoice.BillingPeriod
    SellerName := invoice.SellerName }

/-- Source lines 83-101: the request prepared for `ListInvoices`. The
connection default is read first, a non-empty `organization_id` qual then
replaces it, and the field is assigned only when the result is non-empty. -/
def invoicesRequest (d : QueryData) : ListInvoicesRequest :=
  let req : ListInvoicesRequest := {}
  let scalewayConfig := GetConfig d.Connection
  let organizationID : String :=
    match scalewayConfig.OrganizationID with
    | some v => v
    | none => ""
  let organizationID : String :=
    if d.EqualsQualString "organization_id" ≠ "" then d.EqualsQualString "organization_id"
    else organizationID
  if organizationID ≠ "" then { req with OrganizationID := some organizationID } else req

/-- Source lines 110-136: the loop over `resp.Invoices`, continuing the trace
`tr`. Each invoice is turned into a row, logged at debug level and streamed;
a nil element aborts the call at its first field read. -/
def streamInvoices : List (Option Invoice) → List Event → Run
  | [], tr => ⟨tr, Outcome.returned none⟩
  | none :: _, tr => ⟨tr, Outcome.nilDereference⟩
  | some invoice :: rest, tr =>
    let item := InvoiceItem.ofInvoice invoice
    streamInvoices rest
      (tr ++ [Event.log LogLevel.Debug "scaleway_invoice.listScalewayInvoices"
                [LogArg.str "invoice_item", LogArg.item item],
              Event.StreamListItem item])

/-- `listScalewayInvoices` (source lines 68-139), over the session provider
`getSessionConfig` and the billing operation `ListInvoices`. -/
def listScalewayInvoices (getSessionConfig : QueryData → SessionResult)
    (ListInvoices : Client → ListInvoicesRequest → ListInvoicesResult)
    (d : QueryData) : Run :=
  let session := getSessionConfig d
  match session.err with
  | some err =>
    ⟨[Event.log LogLevel.Error "scaleway_invoice.listScalewayInvoices"
        [LogArg.str "connection_error", LogArg.err err]],
     Outcome.returned (some err)⟩
  | none =>
    match session.client with
    | none => ⟨[], Outcome.returned (some ⟨"scaleway client is not properly configured"⟩)⟩
    | some client =>
      let req := invoicesRequest d
      let result := ListInvoices client req
      let tr := [Event.ListInvoices client req]
      match result.err with
      | some err =>
        ⟨tr ++ [Event.log LogLevel.Error "scaleway_invoice.listScalewayInvoices"
                  [LogArg.str "api_error", LogArg.err err]],
         Outcome.returned (some err)⟩
      | none =>
        match result.resp with
        | none => ⟨tr, Outcome.nilDereference⟩
        | some resp => streamInvoices resp.Invoices tr

/-! ## Sample inputs -/

/-- A session provider that hands out client 1. -/
def sessionOk : QueryData → SessionResult :=
  fun _ => ⟨some ⟨1⟩, none⟩

/-- A session provider that fails with the error `e`, here while still
handing out a client. -/
def sessionFails (e : GoError) : QueryData → SessionResult :=
  fun _ => ⟨some ⟨1⟩, some e⟩

/-- A session provider that returns a nil client and no error. -/
def sessionNilClient : QueryData → SessionResult :=
  fun _ => ⟨none, none⟩

/-- A billing operation that answers every request with the invoices `l`. -/
def apiReturns (l : List (Option Invoice)) : Client → ListInvoicesRequest → ListInvoicesResult :=
  fun _ _ => ⟨some ⟨l⟩, none⟩

/-- A billing operation that fails with `e`, alongside a response holding
the invoices `l`. -/
def apiFails (e : GoError) (l : List (Option Invoice)) :
    Client → ListInvoicesRequest → ListInvoicesResult :=
  fun _ _ => ⟨some ⟨l⟩, some e⟩

/-- An invoice with every optional field populated. -/
def invoiceA : Invoice :=
  { ID := "inv-a", OrganizationID := "org-123", OrganizationName := "Acme"
    StartDate := some ⟨100⟩, StopDate := some ⟨200⟩, BillingPeriod := some ⟨100⟩
    IssuedDate := some ⟨210⟩, DueDate := some ⟨300⟩
    TotalUntaxed := some ⟨"EUR", 10, 0⟩, TotalTaxed := some ⟨"EUR", 12, 0⟩
    TotalTax := some ⟨"EUR", 2, 0⟩, TotalDiscount := some ⟨"EUR", 1, 500000000⟩
    TotalUndiscount := some ⟨"EUR", 11, 500000000⟩
    Type_ := "periodic", State := "paid", Number := 7, SellerName := "Scaleway SAS" }

/-- An invoice with every optional field absent. -/
def invoiceB : Invoice :=
  { ID := "inv-b", OrganizationID := "org-123", OrganizationName := "Acme"
    StartDate := none, StopDate := none, BillingPeriod := none
    IssuedDate := none, DueDate := none
    TotalUntaxed := none, TotalTaxed := none, TotalTax := none
    TotalDiscount := none, TotalUndiscount := none
    Type_ := "purchase", State := "draft", Number := 8, SellerName := "" }

/-- A query with the filter `organization_id = "org-123"` on a connection
whose default organization is `"org-default"`. -/
def queryFiltered : QueryData :=
  { Connection := some ⟨some { OrganizationID := some "org-default" }⟩
    EqualsQuals := [("organization_id", "org-123")] }

/-- A query without filter on a connection whose default organization is
`"org-default"`. -/
def queryDefaultOnly : QueryData :=
  { Connection := some ⟨some { OrganizationID := some "org-default" }⟩
    EqualsQuals := [] }

/-- A query without filter on a connection without default organization. -/
def queryBare : QueryData :=
  { Connection := some ⟨some { OrganizationID := none }⟩
    EqualsQuals := [] }

/-- A query with the filter `organization_id = ""` on a connection whose
default organization is `"org-default"`. -/
def queryEmptyFilter : QueryData :=
  { Connection := some ⟨some { OrganizationID := some "org-default" }⟩
    EqualsQuals := [("organization_id", "")] }

/-! ## Lemmas on the loop -/

/-- Over non-nil invoices the loop streams one row per invoice, in order,
after whatever the trace already held. -/
theorem streamInvoices_emitted (L : List Invoice) (tr : List Event) :
    (streamInvoices (L.map some) tr).emitted
      = (Run.mk tr (Outcome.returned none)).emitted ++ L.map InvoiceItem.ofInvoice := by
  induction L generalizing tr with
  | nil => simp [streamInvoices]
  | cons inv rest ih =>
    simp only [List.map_cons, streamInvoices]
    rw [ih]
    simp [Run.emitted, List.filterMap_append]

/-- Over non-nil invoices the loop runs to the final `return nil, nil`. -/
theorem streamInvoices_outcome (L : List Invoice) (tr : List Event) :
    (streamInvoices (L.map some) tr).outcome = Outcome.returned none := by
  induction L generalizing tr with
  | nil => simp [streamInvoices]
  | cons inv rest ih =>
    simp only [List.map_cons, streamInvoices]
    exact ih _

/-- The loop makes no billing call, whatever the slice holds. -/
theorem streamInvoices_apiCalls (l : List (Option Invoice)) (tr : List Event) :
    (streamInvoices l tr).apiCalls = (Run.mk tr (Outcome.returned none)).apiCalls := by
  induction l generalizing tr with
  | nil => simp [streamInvoices]
  | cons x rest ih =>
    cases x with
    | none => simp [streamInvoices, Run.apiCalls]
    | some inv =>
      simp only [streamInvoices]
      rw [ih]
      simp [Run.apiCalls, List.filterMap_append]

/-- Once the client is available, exactly one billing call is made, with the
prepared request, whatever the billing operation answers. -/
theorem listScalewayInvoices_apiCalls
    (getSessionConfig : QueryData → SessionResult)
    (ListInvoices : Client → ListInvoicesRequest → ListInvoicesResult)
    (d : QueryData) (client : Client)
    (hs : getSessionConfig d = ⟨some client, none⟩) :
    (listScalewayInvoices getSessionConfig ListInvoices d).apiCalls
      = [(client, invoicesRequest d)] := by
  simp only [listScalewayInvoices, hs]
  cases herr : (ListInvoices client (invoicesRequest d)).err with
  | some e => simp [Run.apiCalls]
  | none =>
    cases hresp : (ListInvoices client (invoicesRequest d)).resp with
    | none => simp [Run.apiCalls]
    | some resp =>
      simp only []
      rw [streamInvoices_apiCalls]
      simp [Run.apiCalls]

/-- A non-empty value of the `organization_id` qual is what the prepared
request carries, whatever the connection default. -/
theorem invoicesRequest_of_qual (d : QueryData) (q : String)
    (hq : d.EqualsQuals.lookup "organization_id" = some q) (hne : q ≠ "") :
    invoicesRequest d = { OrganizationID := some q } := by
  simp [invoicesRequest, QueryData.EqualsQualString, hq, hne]

/-- Without a non-empty qual value the prepared request follows the
connection default. -/
theorem invoicesRequest_of_default (d : QueryData)
    (hq : d.EqualsQualString "organization_id" = "") :
    invoicesRequest d =
      { OrganizationID :=
          match (GetConfig d.Connection).OrganizationID with
          | some v => if v = "" then none else some v
          | none => none } := by
  cases hc : (GetConfig d.Connection).OrganizationID with
  | none => simp [invoicesRequest, hq, hc]
  | some v =>
    by_cases hv : v = ""
    · simp [invoicesRequest, hq, hc, hv]
    · simp [invoicesRequest, hq, hc, hv]

/-! ## Claims -/

/-- C1: when the session provider yields a client without error and
ListInvoices answers the prepared request without error with the invoices L,
the rows handed to StreamListItem are as many as L, in the order of L, the
i-th row equal to the i-th invoice on each of the 17 fields, and the call
returns no error. -/
theorem listScalewayInvoices_streams_every_invoice
    (getSessionConfig : QueryData → SessionResult)
    (ListInvoices : Client → ListInvoicesRequest → ListInvoicesResult)
    (d : QueryData) (client : Client) (L : List Invoice)
    (hs : getSessionConfig d = ⟨some client, none⟩)
    (hapi : ListInvoices client (invoicesRequest d) = ⟨some ⟨L.map some⟩, none⟩) :
    (listScalewayInvoices getSessionConfig ListInvoices d).emitted.length = L.length ∧
    (∀ (i : Nat) (h : i < L.length), ∃ item : InvoiceItem,
      (listScalewayInvoices getSessionConfig ListInvoices d).emitted[i]? = some item ∧
      item.ID = L[i].ID ∧
      item.OrganizationID = L[i].OrganizationID ∧
      item.OrganizationName = L[i].OrganizationName ∧
      item.StartDate = L[i].StartDate ∧
      item.StopDate = L[i].StopDate ∧
      item.IssuedDate = L[i].IssuedDate ∧
      item.DueDate = L[i].DueDate ∧
      item.TotalUntaxed = L[i].TotalUntaxed ∧
      item.TotalTaxed = L[i].TotalTaxed ∧
      item.TotalDiscount = L[i].TotalDiscount ∧
      item.TotalUndiscount = L[i].TotalUndiscount ∧
      item.TotalTax = L[i].TotalTax ∧
      item.Type_ = L[i].Type_ ∧
      item.Number = L[i].Number ∧
      item.State = L[i].State ∧
      item.BillingPeriod = L[i].BillingPeriod ∧
      item.SellerName = L[i].SellerName) ∧
    (listScalewayInvoices getSessionConfig ListInvoices d).outcome = Outcome.returned none := by
  have hrun : listScalewayInvoices getSessionConfig ListInvoices d
      = streamInvoices (L.map some) [Event.ListInvoices client (invoicesRequest d)] := by
    simp [listScalewayInvoices, hs, hapi]
  have hem : (listScalewayInvoices getSessionConfig ListInvoices d).emitted
      = L.map InvoiceItem.ofInvoice := by
    rw [hrun, streamInvoices_emitted]
    simp [Run.emitted]
  refine ⟨?_, ?_, ?_⟩
  · rw [hem, List.length_map]
  · intro i h
    refine ⟨InvoiceItem.ofInvoice L[i], ?_, ?_⟩
    · rw [hem]
      simp [List.getElem?_map, List.getElem?_eq_getElem h]
    · simp [InvoiceItem.ofInvoice]
  · rw [hrun, streamInvoices_outcome]

/-- Witness of C1: two invoices, one with every optional field set and one
with none, come out as two rows in the same order. -/
theorem listScalewayInvoices_streams_every_invoice_witness :
    sessionOk queryFiltered = ⟨some ⟨1⟩, none⟩ ∧
    apiReturns [some invoiceA, some invoiceB] ⟨1⟩ (invoicesRequest queryFiltered)
      = ⟨some ⟨[invoiceA, invoiceB].map some⟩, none⟩ ∧
    (listScalewayInvoices sessionOk (apiReturns [some invoiceA, some invoiceB])
      queryFiltered).emitted.length = 2 ∧
    (listScalewayInvoices sessionOk (apiReturns [some invoiceA, some invoiceB])
      queryFiltered).outcome = Outcome.returned none :=
  ⟨rfl, rfl,
   (listScalewayInvoices_streams_every_invoice sessionOk
      (apiReturns [some invoiceA, some invoiceB]) queryFiltered ⟨1⟩
      [invoiceA, invoiceB] rfl rfl).1,
   (listScalewayInvoices_streams_every_invoice sessionOk
      (apiReturns [some invoiceA, some invoiceB]) queryFiltered ⟨1⟩
      [invoiceA, invoiceB] rfl rfl).2.2⟩

/-- C2: with the client available, a query whose equality filter on
organization_id has the non-empty value q makes the one request passed to
ListInvoices carry OrganizationID = q, whatever the connection holds as
default (nothing, the empty string or any other string). -/
theorem listScalewayInvoices_request_carries_filter
    (getSessionConfig : QueryData → SessionResult)
    (ListInvoices : Client → ListInvoicesRequest → ListInvoicesResult)
    (d : QueryData) (client : Client) (q : String)
    (hs : getSessionConfig d = ⟨some client, none⟩)
    (hq : d.EqualsQuals.lookup "organization_id" = some q) (hne : q ≠ "") :
    (listScalewayInvoices getSessionConfig ListInvoices d).apiCalls
      = [(client, { OrganizationID := some q })] := by
  rw [listScalewayInvoices_apiCalls getSessionConfig ListInvoices d client hs,
    invoicesRequest_of_qual d q hq hne]

/-- Witness of C2: the filter "org-123" wins over the default "org-default". -/
theorem listScalewayInvoices_request_carries_filter_witness :
    sessionOk queryFiltered = ⟨some ⟨1⟩, none⟩ ∧
    queryFiltered.EqualsQuals.lookup "organization_id" = some "org-123" ∧
    "org-123" ≠ "" ∧
    GetConfig queryFiltered.Connection = { OrganizationID := some "org-default" } ∧
    (listScalewayInvoices sessionOk (apiReturns []) queryFiltered).apiCalls
      = [(⟨1⟩, { OrganizationID := some "org-123" })] :=
  ⟨rfl, by decide, by decide, rfl,
   listScalewayInvoices_request_carries_filter sessionOk (apiReturns []) queryFiltered
     ⟨1⟩ "org-123" rfl (by decide) (by decide)⟩

/-- C3: with the client available, a query without equality filter on
organization_id on a connection whose default organization id is the
non-empty string c makes the one request passed to ListInvoices carry
OrganizationID = c. -/
theorem listScalewayInvoices_request_carries_default
    (getSessionConfig : QueryData → SessionResult)
    (ListInvoices : Client → ListInvoicesRequest → ListInvoicesResult)
    (d : QueryData) (client : Client) (c : String)
    (hs : getSessionConfig d = ⟨some client, none⟩)
    (hq : d.EqualsQuals.lookup "organization_id" = none)
    (hc : (GetConfig d.Connection).OrganizationID = some c) (hne : c ≠ "") :
    (listScalewayInvoices getSessionConfig ListInvoices d).apiCalls
      = [(client, { OrganizationID := some c })] := by
  rw [listScalewayInvoices_apiCalls getSessionConfig ListInvoices d client hs,
    invoicesRequest_of_default d (by simp [QueryData.EqualsQualString, hq])]
  simp [hc, hne]

/-- Witness of C3: the default "org-default" reaches the request. -/
theorem listScalewayInvoices_request_carries_default_witness :
    sessionOk queryDefaultOnly = ⟨some ⟨1⟩, none⟩ ∧
    queryDefaultOnly.EqualsQuals.lookup "organization_id" = none ∧
    (GetConfig queryDefaultOnly.Connection).OrganizationID = some "org-default" ∧
    "org-default" ≠ "" ∧
    (listScalewayInvoices sessionOk (apiReturns []) queryDefaultOnly).apiCalls
      = [(⟨1⟩, { OrganizationID := some "org-default" })] :=
  ⟨rfl, rfl, rfl, by decide,
   listScalewayInvoices_request_carries_default sessionOk (apiReturns []) queryDefaultOnly
     ⟨1⟩ "org-default" rfl rfl rfl (by decide)⟩

/-- C4: with the client available, a query without equality filter on
organization_id on a connection without default organization id makes the
one request passed to ListInvoices leave OrganizationID unset (nil), which
is not a pointer to the empty string. -/
theorem listScalewayInvoices_request_omits_organization
    (getSessionConfig : QueryData → SessionResult)
    (ListInvoices : Client → ListInvoicesRequest → ListInvoicesResult)
    (d : QueryData) (client : Client)
    (hs : getSessionConfig d = ⟨some client, none⟩)
    (hq : d.EqualsQuals.lookup "organization_id" = none)
    (hc : (GetConfig d.Connection).OrganizationID = none) :
    (listScalewayInvoices getSessionConfig ListInvoices d).apiCalls
      = [(client, { OrganizationID := none })] ∧
    ∀ call ∈ (listScalewayInvoices getSessionConfig ListInvoices d).apiCalls,
      call.2.OrganizationID ≠ some "" := by
  have h : (listScalewayInvoices getSessionConfig ListInvoices d).apiCalls
      = [(client, { OrganizationID := none })] := by
    rw [listScalewayInvoices_apiCalls getSessionConfig ListInvoices d client hs,
      invoicesRequest_of_default d (by simp [QueryData.EqualsQualString, hq])]
    simp [hc]
  refine ⟨h, ?_⟩
  intro call hcall
  rw [h] at hcall
  simp at hcall
  simp [hcall]

/-- Witness of C4: no filter and no default leave the field unset. -/
theorem listScalewayInvoices_request_omits_organization_witness :
    sessionOk queryBare = ⟨some ⟨1⟩, none⟩ ∧
    queryBare.EqualsQuals.lookup "organization_id" = none ∧
    (GetConfig queryBare.Connection).OrganizationID = none ∧
    (listScalewayInvoices sessionOk (apiReturns []) queryBare).apiCalls
      = [(⟨1⟩, { OrganizationID := none })] :=
  ⟨rfl, rfl, rfl,
   (listScalewayInvoices_request_omits_organization sessionOk (apiReturns []) queryBare
     ⟨1⟩ rfl rfl rfl).1⟩

/-- C5: when the session provider returns the error e (with or without a
client), the call returns exactly e, hands no row to StreamListItem and
makes no ListInvoices call. -/
theorem listScalewayInvoices_session_error
    (getSessionConfig : QueryData → SessionResult)
    (ListInvoices : Client → ListInvoicesRequest → ListInvoicesResult)
    (d : QueryData) (e : GoError)
    (hs : (getSessionConfig d).err = some e) :
    (listScalewayInvoices getSessionConfig ListInvoices d).outcome
      = Outcome.returned (some e) ∧
    (listScalewayInvoices getSessionConfig ListInvoices d).emitted = [] ∧
    (listScalewayInvoices getSessionConfig ListInvoices d).apiCalls = [] := by
  simp [listScalewayInvoices, hs, Run.emitted, Run.apiCalls]

/-- Witness of C5: the provider fails with "no credentials" while a billing
operation full of invoices stands ready. -/
theorem listScalewayInvoices_session_error_witness :
    (sessionFails ⟨"no credentials"⟩ queryFiltered).err = some ⟨"no credentials"⟩ ∧
    (listScalewayInvoices (sessionFails ⟨"no credentials"⟩)
        (apiReturns [some invoiceA, some invoiceB]) queryFiltered).outcome
      = Outcome.returned (some ⟨"no credentials"⟩) ∧
    (listScalewayInvoices (sessionFails ⟨"no credentials"⟩)
        (apiReturns [some invoiceA, some invoiceB]) queryFiltered).emitted = [] ∧
    (listScalewayInvoices (sessionFails ⟨"no credentials"⟩)
        (apiReturns [some invoiceA, some invoiceB]) queryFiltered).apiCalls = [] :=
  ⟨rfl,
   listScalewayInvoices_session_error (sessionFails ⟨"no credentials"⟩)
     (apiReturns [some invoiceA, some invoiceB]) queryFiltered ⟨"no credentials"⟩ rfl⟩

/-- C6: when the client is available and ListInvoices answers the prepared
request with the error e, the call returns exactly e and hands no row to
StreamListItem, whatever response value comes with the error. -/
theorem listScalewayInvoices_api_error
    (getSessionConfig : QueryData → SessionResult)
    (ListInvoices : Client → ListInvoicesRequest → ListInvoicesResult)
    (d : QueryData) (client : Client) (e : GoError)
    (hs : getSessionConfig d = ⟨some client, none⟩)
    (hapi : (ListInvoices client (invoicesRequest d)).err = some e) :
    (listScalewayInvoices getSessionConfig ListInvoices d).outcome
      = Outcome.returned (some e) ∧
    (listScalewayInvoices getSessionConfig ListInvoices d).emitted = [] := by
  simp [listScalewayInvoices, hs, hapi, Run.emitted]

/-- Witness of C6: the billing operation fails with "HTTP 500" and still
hands back a response holding two invoices; none of them is streamed. -/
theorem listScalewayInvoices_api_error_witness :
    sessionOk queryFiltered = ⟨some ⟨1⟩, none⟩ ∧
    (apiFails ⟨"HTTP 500"⟩ [some invoiceA, some invoiceB] ⟨1⟩
        (invoicesRequest queryFiltered)).err = some ⟨"HTTP 500"⟩ ∧
    (apiFails ⟨"HTTP 500"⟩ [some invoiceA, some invoiceB] ⟨1⟩
        (invoicesRequest queryFiltered)).resp = some ⟨[some invoiceA, some invoiceB]⟩ ∧
    (listScalewayInvoices sessionOk (apiFails ⟨"HTTP 500"⟩ [some invoiceA, some invoiceB])
        queryFiltered).outcome = Outcome.returned (some ⟨"HTTP 500"⟩) ∧
    (listScalewayInvoices sessionOk (apiFails ⟨"HTTP 500"⟩ [some invoiceA, some invoiceB])
        queryFiltered).emitted = [] :=
  ⟨rfl, rfl, rfl,
   listScalewayInvoices_api_error sessionOk
     (apiFails ⟨"HTTP 500"⟩ [some invoiceA, some invoiceB]) queryFiltered ⟨1⟩
     ⟨"HTTP 500"⟩ rfl rfl⟩

/-- C7: when the session provider returns a nil client and no error, the
call returns at once the error "scaleway client is not properly configured",
hands no row to StreamListItem and makes no ListInvoices call. -/
theorem listScalewayInvoices_nil_client
    (getSessionConfig : QueryData → SessionResult)
    (ListInvoices : Client → ListInvoicesRequest → ListInvoicesResult)
    (d : QueryData)
    (hs : getSessionConfig d = ⟨none, none⟩) :
    (listScalewayInvoices getSessionConfig ListInvoices d).outcome
      = Outcome.returned (some ⟨"scaleway client is not properly configured"⟩) ∧
    (listScalewayInvoices getSessionConfig ListInvoices d).emitted = [] ∧
    (listScalewayInvoices getSessionConfig ListInvoices d).apiCalls = [] := by
  simp [listScalewayInvoices, hs, Run.emitted, Run.apiCalls]

/-- Witness of C7: a nil client in front of a billing operation full of
invoices. -/
theorem listScalewayInvoices_nil_client_witness :
    sessionNilClient queryFiltered = ⟨none, none⟩ ∧
    (listScalewayInvoices sessionNilClient (apiReturns [some invoiceA]) queryFiltered).outcome
      = Outcome.returned (some ⟨"scaleway client is not properly configured"⟩) ∧
    (listScalewayInvoices sessionNilClient (apiReturns [some invoiceA]) queryFiltered).emitted
      = [] ∧
    (listScalewayInvoices sessionNilClient (apiReturns [some invoiceA]) queryFiltered).apiCalls
      = [] :=
  ⟨rfl,
   listScalewayInvoices_nil_client sessionNilClient (apiReturns [some invoiceA])
     queryFiltered rfl⟩

/-- C8, as stated, fails: the query filter organization_id = "" on a
connection whose default is "org-default" does not make the request omit
OrganizationID; the request carries the connection default. -/
theorem listScalewayInvoices_empty_filter_uses_default :
    queryEmptyFilter.EqualsQuals.lookup "organization_id" = some "" ∧
    (listScalewayInvoices sessionOk (apiReturns []) queryEmptyFilter).apiCalls
      = [(⟨1⟩, { OrganizationID := some "org-default" })] ∧
    (listScalewayInvoices sessionOk (apiReturns []) queryEmptyFilter).apiCalls
      ≠ [(⟨1⟩, { OrganizationID := none })] := by
  decide

/-- C8, amended: with the client available, an equality filter on
organization_id with a non-empty value q makes the one request carry q
whatever the connection default; when the query has no such filter, or has
it with the empty string, the connection default decides: the request
carries it when it is non-empty and leaves OrganizationID unset otherwise. -/
theorem listScalewayInvoices_resolution_order
    (getSessionConfig : QueryData → SessionResult)
    (ListInvoices : Client → ListInvoicesRequest → ListInvoicesResult)
    (d : QueryData) (client : Client)
    (hs : getSessionConfig d = ⟨some client, none⟩) :
    (∀ q : String, d.EqualsQuals.lookup "organization_id" = some q → q ≠ "" →
      (listScalewayInvoices getSessionConfig ListInvoices d).apiCalls
        = [(client, { OrganizationID := some q })]) ∧
    ((d.EqualsQuals.lookup "organization_id" = none ∨
        d.EqualsQuals.lookup "organization_id" = some "") →
      (∀ c : String, (GetConfig d.Connection).OrganizationID = some c → c ≠ "" →
        (listScalewayInvoices getSessionConfig ListInvoices d).apiCalls
          = [(client, { OrganizationID := some c })]) ∧
      (((GetConfig d.Connection).OrganizationID = none ∨
          (GetConfig d.Connection).OrganizationID = some "") →
        (listScalewayInvoices getSessionConfig ListInvoices d).apiCalls
          = [(client, { OrganizationID := none })])) := by
  rw [listScalewayInvoices_apiCalls getSessionConfig ListInvoices d client hs]
  refine ⟨?_, ?_⟩
  · intro q hq hne
    rw [invoicesRequest_of_qual d q hq hne]
  · intro hq
    have hq0 : d.EqualsQualString "organization_id" = "" := by
      rcases hq with hq | hq <;> simp [QueryData.EqualsQualString, hq]
    rw [invoicesRequest_of_default d hq0]
    refine ⟨?_, ?_⟩
    · intro c hc hne
      simp [hc, hne]
    · intro hc
      rcases hc with hc | hc <;> simp [hc]

/-- Witness of amended C8, at the query whose filter is the empty string. -/
theorem listScalewayInvoices_resolution_order_witness :
    sessionOk queryEmptyFilter = ⟨some ⟨1⟩, none⟩ ∧
    queryEmptyFilter.EqualsQuals.lookup "organization_id" = some "" ∧
    (GetConfig queryEmptyFilter.Connection).OrganizationID = some "org-default" ∧
    (listScalewayInvoices sessionOk (apiReturns [some invoiceB]) queryEmptyFilter).apiCalls
      = [(⟨1⟩, { OrganizationID := some "org-default" })] :=
  ⟨rfl, by decide, rfl,
   ((listScalewayInvoices_resolution_order sessionOk (apiReturns [some invoiceB])
      queryEmptyFilter ⟨1⟩ rfl).2 (Or.inr (by decide))).1 "org-default" rfl (by decide)⟩

/-- C9 fails on the nil client path: the call returns the configuration
error without any error-level log entry (its whole trace is empty), where
the claim asks for exactly one. -/
theorem listScalewayInvoices_nil_client_not_logged :
    (listScalewayInvoices sessionNilClient (apiReturns [some invoiceA]) queryFiltered).outcome
      = Outcome.returned (some ⟨"scaleway client is not properly configured"⟩) ∧
    (listScalewayInvoices sessionNilClient (apiReturns [some invoiceA]) queryFiltered).errorLogs
      = [] ∧
    (listScalewayInvoices sessionNilClient (apiReturns [some invoiceA]) queryFiltered).trace
      = [] ∧
    (listScalewayInvoices (sessionFails ⟨"no credentials"⟩) (apiReturns [some invoiceA])
        queryFiltered).errorLogs.length = 1 ∧
    (listScalewayInvoices sessionOk (apiFails ⟨"HTTP 500"⟩ []) queryFiltered).errorLogs.length
      = 1 := by
  decide

/-- C10: the table is named "scaleway_invoice"; its only key column is
organization_id, marked optional; it has 17 columns with pairwise distinct
names, the names being exactly the json tags of InvoiceItem; the five date
columns are TIMESTAMP, the five amount columns JSON, number is INT and the
six remaining columns are STRING. -/
theorem tableScalewayInvoice_shape :
    tableScalewayInvoice.2.Name = "scaleway_invoice" ∧
    tableScalewayInvoice.2.List.KeyColumns
      = [{ Name := "organization_id", Require := Require.Optional }] ∧
    tableScalewayInvoice.2.Columns.length = 17 ∧
    (tableScalewayInvoice.2.Columns.map Column.Name).Nodup ∧
    (∀ n ∈ tableScalewayInvoice.2.Columns.map Column.Name,
      n ∈ InvoiceItem.jsonTags.map Prod.snd) ∧
    (∀ n ∈ InvoiceItem.jsonTags.map Prod.snd,
      n ∈ tableScalewayInvoice.2.Columns.map Column.Name) ∧
    ((tableScalewayInvoice.2.Columns.filter
        (fun c => c.Type_ = ColumnType.TIMESTAMP)).map Column.Name
      = ["start_date", "stop_date", "billing_period", "issued_date", "due_date"]) ∧
    ((tableScalewayInvoice.2.Columns.filter
        (fun c => c.Type_ = ColumnType.JSON)).map Column.Name
      = ["total_untaxed", "total_taxed", "total_tax", "total_discount",
         "total_undiscount"]) ∧
    ((tableScalewayInvoice.2.Columns.filter
        (fun c => c.Type_ = ColumnType.INT)).map Column.Name = ["number"]) ∧
    ((tableScalewayInvoice.2.Columns.filter
        (fun c => c.Type_ = ColumnType.STRING)).map Column.Name
      = ["id", "organization_id", "organization_name", "type", "state", "seller_name"]) := by
  decide

end Scaleway
